import Mathlib

/-!
Verification of `sshexpect` (src/sshexpect/sshexpect.py) against its
natural-language specification.

The embedding models the polling-channel (paramiko) forwarder, the option
marshalling of both spawn paths, the send/terminate operations of both
process-handle classes, and the dispatch logic of `spawn`, as shallow Lean
definitions translated from the Python source.  External collaborators
(the OS pipe, the paramiko channel, the asyncssh process, Python's UTF-8
codec) appear only through the interface contract the source code uses,
with their documented behaviour stated in the doc comment of each model.
-/

namespace SSHExpect

/-- A byte, kept as a `Nat` (values below 256 in every run we consider). -/
abbrev Byte := Nat

/-- The OS pipe created by `os.pipe()` at the start of both spawn paths:
bytes written to the write end and not yet read, plus the two fds' open
state.  Reads at the read end return end-of-stream exactly when the buffer
is empty and the write end has been closed (standard pipe semantics,
spec section 4.1). -/
structure Pipe where
  buf : List Byte
  writeClosed : Bool
  readClosed : Bool
  deriving Repr, DecidableEq

/-- Reading the pipe's read end reports end-of-stream: true iff the write
end is closed and no buffered data remains.  This is how the pexpect
`fdspawn` engine blocked in `expect` detects EOF. -/
def pipeReadEOF (p : Pipe) : Bool :=
  p.writeClosed && p.buf.isEmpty

/-- The paramiko channel as the source uses it: `recv_ready()` is true iff
`pending` is nonempty, `recv(n)` removes and returns up to `n` pending
bytes, `exit_status_ready()` returns `exited`, and `close()` closes the
channel.  `pending` holds bytes already delivered by the remote side and
not yet received; `isOpen` is the channel's open state. -/
structure Channel where
  pending : List Byte
  exited : Bool
  isOpen : Bool
  deriving Repr, DecidableEq

/-- `Channel.recv_ready()`. -/
def recvReady (ch : Channel) : Bool :=
  !ch.pending.isEmpty

/-- `Channel.recv (buffSize)`: returns up to `buffSize` pending bytes and
removes them from the channel. -/
def channelRecv (buffSize : Nat) (ch : Channel) : List Byte × Channel :=
  (ch.pending.take buffSize, { ch with pending := ch.pending.drop buffSize })

/-- `Channel.exit_status_ready()`. -/
def exitStatusReady (ch : Channel) : Bool :=
  ch.exited

/-- `Channel.close()`.  Modelled from paramiko's documented behaviour and
the source's own comment "Thread will finish after terminate() call":
closing the channel ends the remote command, after which
`exit_status_ready()` becomes true, so the forwarder loop observes exit. -/
def channelClose (ch : Channel) : Channel :=
  { ch with isOpen := false, exited := true }

/-- One step of the asynchronous environment between the forwarder's
polls: `arrive` is data the remote side delivers into the channel's
pending buffer, `exitReady` marks the remote command's exit status
becoming ready. -/
structure EnvStep where
  arrive : List Byte
  exitReady : Bool
  deriving Repr, DecidableEq

/-- Apply an environment step to the channel. -/
def applyEnv (e : EnvStep) (ch : Channel) : Channel :=
  { ch with pending := ch.pending ++ e.arrive, exited := ch.exited || e.exitReady }

/-- The environment activity interleaved with one iteration of the
forwarder's `while True` loop: `e1` happens before the `recv_ready()`
check, `e2` between the `recv`/write and the `exit_status_ready()`
check. -/
structure IterEnv where
  e1 : EnvStep
  e2 : EnvStep
  deriving Repr, DecidableEq

/-- Joint state of the channel and the bridge pipe as the forwarder
thread sees them. -/
structure FwdState where
  ch : Channel
  pipe : Pipe
  deriving Repr, DecidableEq

/-- One iteration of the `redirect` loop body
(src/sshexpect/sshexpect.py lines 184-188):

    while True:
        if session.recv_ready():
            os.write(stdout, session.recv(buff_size))
        if session.exit_status_ready():
            break

Returns the new state and whether the loop breaks after this iteration.
Note that the loop body never closes the pipe's write end. -/
def redirectIter (buffSize : Nat) (env : IterEnv) (s : FwdState) : FwdState × Bool :=
  let ch := applyEnv env.e1 s.ch
  let step :=
    if recvReady ch then
      let (data, ch') := channelRecv buffSize ch
      (ch', { s.pipe with buf := s.pipe.buf ++ data })
    else
      (ch, s.pipe)
  let ch2 := applyEnv env.e2 step.1
  (⟨ch2, step.2⟩, exitStatusReady ch2)

/-- A run of the `redirect` loop over a finite schedule of environment
steps.  Returns the final state and whether the loop terminated (broke on
`exit_status_ready`) within the schedule; `false` means the schedule
ended with the loop still spinning. -/
def redirectRun (buffSize : Nat) (envs : List IterEnv) (s : FwdState) : FwdState × Bool :=
  match envs with
  | [] => (s, false)
  | e :: rest =>
    let step := redirectIter buffSize e s
    if step.2 then (step.1, true) else redirectRun buffSize rest step.1

/-- All bytes the environment delivered to the channel during a schedule. -/
def arrivedBytes (envs : List IterEnv) : List Byte :=
  (envs.map (fun e => e.e1.arrive ++ e.e2.arrive)).flatten

/-- `ParamikoChannelExpect.terminate(force)` at the channel level
(src lines 119-121): calls `self.ssh_proc.close()`, ignoring `force`. -/
def paramikoTerminateChannel (force : Bool) (ch : Channel) : Channel :=
  channelClose ch

/-- The action a `terminate(force)` call performs on the underlying
transport handle. -/
inductive TermAction where
  | killSignal
  | gracefulSignal
  | chanClose
  deriving Repr, DecidableEq

/-- `SSHClientProcessExpect.terminate(force)` (src lines 55-60): forwards to
`ssh_proc.kill()` when `force`, else to `ssh_proc.terminate()`. -/
def asyncsshTerminateAction (force : Bool) : TermAction :=
  if force then TermAction.killSignal else TermAction.gracefulSignal

/-- `ParamikoChannelExpect.terminate(force)` (src lines 119-121): calls
`self.ssh_proc.close()` regardless of `force`. -/
def paramikoTerminateAction (force : Bool) : TermAction :=
  TermAction.chanClose

/-- State of the channel behind an asyncssh `SSHClientProcess`: open until
the remote command exits (asyncssh closes the channel once the exit
status has been received) or the channel is otherwise closed. -/
structure AsyncChan where
  chanOpen : Bool
  deriving Repr, DecidableEq

/-- Modelled from asyncssh's documented interface: `SSHClientProcess.kill()`
and `SSHClientProcess.terminate()` send a signal over the channel and
raise `OSError` if the channel is not open — as it no longer is once the
process has exited. -/
def asyncsshSignal (p : AsyncChan) : Except String AsyncChan :=
  if p.chanOpen then Except.ok p else Except.error "OSError: channel not open"

/-- `SSHClientProcessExpect.terminate(force)` as a state transition
(src lines 55-60): the source forwards unconditionally, with no liveness
guard, to `kill()` when `force` and to `terminate()` otherwise. -/
def asyncsshExpectTerminate (force : Bool) (p : AsyncChan) : Except String AsyncChan :=
  if force then asyncsshSignal p else asyncsshSignal p

/-- `ParamikoChannelExpect.terminate(force)` as a state transition
(src lines 119-121): `Channel.close()`, which paramiko documents as safe
to call repeatedly (closing an already-closed channel is a no-op and
does not raise). -/
def paramikoExpectTerminate (force : Bool) (c : Channel) : Except String Channel :=
  Except.ok (channelClose c)

/-- The concrete capability of the connection object handed to `spawn`. -/
inductive ConnKind where
  | asyncsshClientConnection
  | paramikoSSHClient
  | otherObject
  deriving Repr, DecidableEq

/-- Which optional transport libraries imported successfully
(`HAVE_ASYNCSSH` / `HAVE_PARAMIKO`, src lines 33-47). -/
structure LibEnv where
  haveAsyncssh : Bool
  haveParamiko : Bool
  deriving Repr, DecidableEq

/-- Which construction path `spawn` takes; `unsupportedConnection` is the
`raise ValueError("Unsupported connection type")` branch. -/
inductive SpawnOutcome where
  | asyncsshPath
  | paramikoPath
  | unsupportedConnection
  deriving Repr, DecidableEq

/-- Resources held by one spawn call at the moment it returns or its
exception propagates to the caller. -/
structure Resources where
  pipeFds : Nat
  sessionOpen : Bool
  fwdThreadRunning : Bool
  deriving Repr, DecidableEq

/-- Which external construction steps fail by raising, for exercising the
failure paths of `spawn_paramiko` and `spawn_asyncssh`. -/
structure FailurePlan where
  sessionFails : Bool
  ptyFails : Bool
  execFails : Bool
  createProcessFails : Bool
  deriving Repr, DecidableEq

/-- `spawn_paramiko` (src lines 153-200) as a resource trace: `os.pipe()`
first (two fds), then `open_session`, `get_pty`, `exec_command` — any of
which may raise — then the forwarder thread is started and the handle
returned.  There is no `try`/`finally`: the boolean records success, and
`Resources` records what is still held when the call returns or the
exception propagates. -/
def spawnParamikoRun (fp : FailurePlan) : Bool × Resources :=
  let r : Resources := { pipeFds := 2, sessionOpen := false, fwdThreadRunning := false }
  if fp.sessionFails then (false, r)
  else
    let r := { r with sessionOpen := true }
    if fp.ptyFails then (false, r)
    else if fp.execFails then (false, r)
    else (true, { r with fwdThreadRunning := true })

/-- `spawn_asyncssh` (src lines 92-110) as a resource trace: `os.pipe()`
first (two fds), then `connection.create_process`, which may raise; no
`try`/`finally` releases the pipe on failure.  No forwarder thread exists
on this path. -/
def spawnAsyncsshRun (fp : FailurePlan) : Bool × Resources :=
  let r : Resources := { pipeFds := 2, sessionOpen := false, fwdThreadRunning := false }
  if fp.createProcessFails then (false, r) else (true, r)

/-- `spawn` (src lines 203-228): dispatch on the connection object's type,
guarded by library availability; the `raise ValueError` happens before
any allocation, so the unsupported branch holds no resources. -/
def spawnRun (env : LibEnv) (conn : ConnKind) (fp : FailurePlan) :
    SpawnOutcome × Bool × Resources :=
  if env.haveAsyncssh && conn == ConnKind.asyncsshClientConnection then
    (SpawnOutcome.asyncsshPath, spawnAsyncsshRun fp)
  else if env.haveParamiko && conn == ConnKind.paramikoSSHClient then
    (SpawnOutcome.paramikoPath, spawnParamikoRun fp)
  else
    (SpawnOutcome.unsupportedConnection, false,
      { pipeFds := 0, sessionOpen := false, fwdThreadRunning := false })

/-- A keyword-argument value: a string or an integer. -/
inductive OptVal where
  | str (s : String)
  | nat (n : Nat)
  deriving Repr, DecidableEq

/-- A Python keyword-argument dict as an association list; lookups take the
first binding (keys are unique in an actual dict). -/
abbrev Kw := List (String × OptVal)

/-- `name in kw` / `kw.get(name)`. -/
def kwGet (kw : Kw) (k : String) : Option OptVal :=
  match kw with
  | [] => none
  | (k', v) :: rest => if k' = k then some v else kwGet rest k

/-- `kw.get(name, dflt)`. -/
def kwGetD (kw : Kw) (k : String) (dflt : OptVal) : OptVal :=
  (kwGet kw k).getD dflt

/-- The option values `spawn_asyncssh` passes on to `create_process` and to
the fdspawn constructor after applying its defaults (src lines 96-109):
`kw["term_type"] = kw.get("term_type", "vt100")` and likewise for
`encoding` ("utf-8") and `errors` ("strict"). -/
structure AsyncSpawnCfg where
  term_type : OptVal
  encoding : OptVal
  errors : OptVal
  deriving Repr, DecidableEq

def asyncsshEffectiveCfg (kw : Kw) : AsyncSpawnCfg :=
  { term_type := kwGetD kw "term_type" (OptVal.str "vt100")
  , encoding := kwGetD kw "encoding" (OptVal.str "utf-8")
  , errors := kwGetD kw "errors" (OptVal.str "strict") }

/-- The keyword names `spawn_paramiko` routes to `open_session` (src line
157). -/
def sessionKeys : List String := ["window_size", "max_packet_size", "timeout"]

/-- The keyword names `spawn_paramiko` routes to `get_pty` (src line 158). -/
def ptyKeys : List String := ["term", "width", "height", "width_pixels", "height_pixels"]

/-- The keyword names `spawn_paramiko` keeps for itself (src line 159). -/
def spawnKeys : List String := ["buff_size", "encoding", "errors"]

/-- One group of `kwmap`: copy from `kw`, in group-name order, exactly the
names present in `kw` (src lines 164-169). -/
def filterKw (names : List String) (kw : Kw) : Kw :=
  names.filterMap (fun n => (kwGet kw n).map (fun v => (n, v)))

/-- The `kwmap` dict built by `spawn_paramiko` (src lines 156-169). -/
structure KwMap where
  session : Kw
  pty : Kw
  spawnOpts : Kw
  deriving Repr, DecidableEq

def paramikoKwmap (kw : Kw) : KwMap :=
  { session := filterKw sessionKeys kw
  , pty := filterKw ptyKeys kw
  , spawnOpts := filterKw spawnKeys kw }

/-- Modelled from paramiko's documented interface:
`Channel.get_pty(term="vt100", width=80, height=24, ...)` — the terminal
type requested is the `term` argument when supplied, else the library
default `"vt100"`. -/
def getPtyTerm (ptyKw : Kw) : OptVal :=
  kwGetD ptyKw "term" (OptVal.str "vt100")

/-- `kwmap["spawn"].get("buff_size", 2048)` (src line 182). -/
def effectiveBuffSize (spawnKw : Kw) : OptVal :=
  kwGetD spawnKw "buff_size" (OptVal.nat 2048)

/-- `kwmap["spawn"].get("encoding", "utf-8")` (src line 198). -/
def effectiveEncoding (spawnKw : Kw) : OptVal :=
  kwGetD spawnKw "encoding" (OptVal.str "utf-8")

/-- `kwmap["spawn"].get("errors", "strict")` (src line 199). -/
def effectiveErrors (spawnKw : Kw) : OptVal :=
  kwGetD spawnKw "errors" (OptVal.str "strict")

/-- UTF-8 encoding of one Unicode scalar value, by codepoint range.
Modelled from the UTF-8 codec that Python's `str.encode("utf-8")` and
asyncssh's session encoding apply. -/
def utf8EncodeChar (c : Nat) : List Nat :=
  if c < 0x80 then [c]
  else if c < 0x800 then [0xC0 + c / 0x40, 0x80 + c % 0x40]
  else if c < 0x10000 then [0xE0 + c / 0x1000, 0x80 + (c / 0x40) % 0x40, 0x80 + c % 0x40]
  else [0xF0 + c / 0x40000, 0x80 + (c / 0x1000) % 0x40, 0x80 + (c / 0x40) % 0x40, 0x80 + c % 0x40]

/-- `s.encode("utf-8")` for a text `s` given as its list of Unicode scalar
values. -/
def utf8Encode (s : List Nat) : List Nat :=
  (s.map utf8EncodeChar).flatten

/-- Whether a byte is a UTF-8 continuation byte (`0x80..0xBF`). -/
def contOk (b : Nat) : Bool :=
  0x80 ≤ b && b < 0xC0

/-- Strict UTF-8 decoding of one scalar value from the front of a byte
list: returns the scalar and the remaining bytes, or `none` on malformed
input (stray continuation, truncated sequence, overlong form, surrogate,
or value beyond U+10FFFF).  Modelled from the strict UTF-8 codec behind
Python's `bytes.decode("utf-8", "strict")`. -/
def utf8DecodeStep : List Nat → Option (Nat × List Nat)
  | [] => none
  | b0 :: rest =>
    if b0 < 0x80 then some (b0, rest)
    else if b0 < 0xC2 then none
    else if b0 < 0xE0 then
      match rest with
      | b1 :: rest2 =>
        if contOk b1 then some ((b0 - 0xC0) * 0x40 + (b1 - 0x80), rest2) else none
      | [] => none
    else if b0 < 0xF0 then
      match rest with
      | b1 :: b2 :: rest3 =>
        if contOk b1 && contOk b2 then
          if (b0 - 0xE0) * 0x1000 + (b1 - 0x80) * 0x40 + (b2 - 0x80) < 0x800 then none
          else if 0xD800 ≤ (b0 - 0xE0) * 0x1000 + (b1 - 0x80) * 0x40 + (b2 - 0x80)
                  && (b0 - 0xE0) * 0x1000 + (b1 - 0x80) * 0x40 + (b2 - 0x80) < 0xE000 then none
          else some ((b0 - 0xE0) * 0x1000 + (b1 - 0x80) * 0x40 + (b2 - 0x80), rest3)
        else none
      | _ => none
    else if b0 < 0xF5 then
      match rest with
      | b1 :: b2 :: b3 :: rest4 =>
        if contOk b1 && contOk b2 && contOk b3 then
          if (b0 - 0xF0) * 0x40000 + (b1 - 0x80) * 0x1000 + (b2 - 0x80) * 0x40 + (b3 - 0x80)
              < 0x10000 then none
          else if 0x110000 ≤ (b0 - 0xF0) * 0x40000 + (b1 - 0x80) * 0x1000
                  + (b2 - 0x80) * 0x40 + (b3 - 0x80) then none
          else some ((b0 - 0xF0) * 0x40000 + (b1 - 0x80) * 0x1000
                  + (b2 - 0x80) * 0x40 + (b3 - 0x80), rest4)
        else none
      | _ => none
    else none

/-- Iterated decoding with explicit fuel; each step consumes at least one
byte, so fuel equal to the list length is always enough. -/
def utf8DecodeLoop : Nat → List Nat → Option (List Nat)
  | _, [] => some []
  | 0, _ :: _ => none
  | Nat.succ fuel, b0 :: rest =>
    match utf8DecodeStep (b0 :: rest) with
    | some (c, r) => (utf8DecodeLoop fuel r).map (fun s => c :: s)
    | none => none

/-- `b.decode("utf-8", "strict")`: the whole byte list as a list of
Unicode scalar values, or `none` when strict decoding raises. -/
def utf8Decode (b : List Nat) : Option (List Nat) :=
  utf8DecodeLoop b.length b

/-- Data passed to `send`: Python `bytes` or `str` (text as a list of
Unicode scalar values). -/
inductive SendData where
  | bytes (b : List Nat)
  | text (s : List Nat)
  deriving Repr, DecidableEq

/-- The remote command's input stream behind `ssh_proc.stdin` on the
asyncssh path: the bytes it has received, and whether it is open. -/
structure StdinState where
  received : List Nat
  isOpen : Bool
  deriving Repr, DecidableEq

/-- `ssh_proc.stdin.write(s)` with session encoding "utf-8": appends the
encoded text to the remote command's input stream; fails when the stream
has closed.  Modelled from asyncssh's documented interface. -/
def stdinWrite (s : List Nat) (p : StdinState) : Option StdinState :=
  if p.isOpen then some { p with received := p.received ++ utf8Encode s } else none

/-- `SSHClientProcessExpect.send(s)` (src lines 62-73) with the default
"utf-8"/"strict" policy: for bytes input, `datalen = len(s)` and the
bytes are decoded (a strict decode error propagates, modelled `none`);
for text input, `datalen = len(s.encode(...))`; the text is then written
to `ssh_proc.stdin` and `datalen` is returned. -/
def asyncsshSend (d : SendData) (p : StdinState) : Option (Nat × StdinState) :=
  match d with
  | SendData.bytes b =>
    match utf8Decode b with
    | some s => (stdinWrite s p).map (fun q => (b.length, q))
    | none => none
  | SendData.text s => (stdinWrite s p).map (fun q => ((utf8Encode s).length, q))

/-- The paramiko channel's input direction: bytes transmitted to the
remote command, and whether the channel is open. -/
structure ChanState where
  toRemote : List Nat
  isOpen : Bool
  deriving Repr, DecidableEq

/-- `Channel.send(data)` — modelled from paramiko's documented interface:
transmits the bytes on the open channel and returns the number of bytes
sent; with window space available it accepts the whole buffer.
`ParamikoChannelExpect.send` (src lines 123-125) returns this value
unchanged. -/
def channelSend (data : List Nat) (ch : ChanState) : Option (Nat × ChanState) :=
  if ch.isOpen then some (data.length, { ch with toRemote := ch.toRemote ++ data }) else none

theorem redirectIter_writeClosed (buffSize : Nat) (env : IterEnv) (s : FwdState) :
    ((redirectIter buffSize env s).1.pipe.writeClosed = s.pipe.writeClosed) := by
  unfold redirectIter
  by_cases h : recvReady (applyEnv env.e1 s.ch) = true <;> simp [h]

theorem redirectRun_writeClosed (buffSize : Nat) (envs : List IterEnv) (s : FwdState) :
    ((redirectRun buffSize envs s).1.pipe.writeClosed = s.pipe.writeClosed) := by
  induction envs generalizing s with
  | nil => rfl
  | cons e rest ih =>
    unfold redirectRun
    by_cases h : (redirectIter buffSize e s).2 = true
    · simp [h, redirectIter_writeClosed]
    · simp [h, ih, redirectIter_writeClosed]

/-- C1: claimed, the forwarder's drain loop closes the ByteBridge write-end
upon terminating after observing exit-status-ready, and that close is the
sole end-of-stream signal for a blocked expect call.  The code never
closes the write end: across any run of the `redirect` loop the pipe's
`writeClosed` flag is unchanged, and in the concrete run where the remote
command has exited the loop terminates with the write end still open, so
end-of-stream never becomes visible at the read end. -/
theorem redirect_never_closes_write_end :
    (∀ buffSize envs s,
      ((redirectRun buffSize envs s).1.pipe.writeClosed = s.pipe.writeClosed))
    ∧ ((redirectRun 2048 [⟨⟨[], true⟩, ⟨[], false⟩⟩]
          ⟨⟨[], false, true⟩, ⟨[], false, false⟩⟩).2 = true
       ∧ (redirectRun 2048 [⟨⟨[], true⟩, ⟨[], false⟩⟩]
          ⟨⟨[], false, true⟩, ⟨[], false, false⟩⟩).1.pipe.writeClosed = false
       ∧ pipeReadEOF (redirectRun 2048 [⟨⟨[], true⟩, ⟨[], false⟩⟩]
          ⟨⟨[], false, true⟩, ⟨[], false, false⟩⟩).1.pipe = false) :=
  ⟨redirectRun_writeClosed, by decide⟩

/-- C2: claimed, every byte readable up to the moment of exit is written to
the bridge before the loop stops (one final drain after observing exit).
Counter-run: the bytes of "done" arrive, together with exit-status-ready,
between the `recv_ready()` check and the `exit_status_ready()` check of
one polling iteration; the loop breaks with the bridge pipe still empty
and "done" stranded in the channel's pending buffer. -/
theorem redirect_drops_trailing_output :
    (redirectRun 2048 [⟨⟨[], false⟩, ⟨[100, 111, 110, 101], true⟩⟩]
        ⟨⟨[], false, true⟩, ⟨[], false, false⟩⟩).2 = true
    ∧ arrivedBytes [⟨⟨[], false⟩, ⟨[100, 111, 110, 101], true⟩⟩] = [100, 111, 110, 101]
    ∧ (redirectRun 2048 [⟨⟨[], false⟩, ⟨[100, 111, 110, 101], true⟩⟩]
        ⟨⟨[], false, true⟩, ⟨[], false, false⟩⟩).1.pipe.buf = []
    ∧ (redirectRun 2048 [⟨⟨[], false⟩, ⟨[100, 111, 110, 101], true⟩⟩]
        ⟨⟨[], false, true⟩, ⟨[], false, false⟩⟩).1.ch.pending = [100, 111, 110, 101] := by
  decide

/-- C3: claimed, `terminate(force := true)` unblocks an in-flight expect
call in bounded time by producing EOF on the bridge.  On the paramiko
path, `terminate` closes the channel, the forwarder observes
exit-status-ready and its loop terminates, but the pipe write-end is
never closed, so the read end never reports end-of-stream and the
blocked expect call is never released. -/
theorem terminate_leaves_expect_blocked :
    (redirectRun 2048 [⟨⟨[], false⟩, ⟨[], false⟩⟩]
        ⟨paramikoTerminateChannel true ⟨[], false, true⟩, ⟨[], false, false⟩⟩).2 = true
    ∧ pipeReadEOF (redirectRun 2048 [⟨⟨[], false⟩, ⟨[], false⟩⟩]
        ⟨paramikoTerminateChannel true ⟨[], false, true⟩, ⟨[], false, false⟩⟩).1.pipe = false := by
  decide

/-- C4 counterexample: on the paramiko path, `terminate(force := true)`
does not issue a kill signal — it closes the channel, exactly as
`terminate(force := false)` does, so neither the claimed kill nor the
claimed distinct graceful request exists on this path. -/
theorem paramiko_force_not_kill :
    paramikoTerminateAction true ≠ TermAction.killSignal
    ∧ paramikoTerminateAction true = paramikoTerminateAction false := by
  decide

/-- C4 amended: on the asyncssh path `terminate(force)` issues a kill
signal when `force` and a graceful termination request otherwise; on the
paramiko path it closes the channel regardless of `force`. -/
theorem terminate_action_by_path :
    (∀ force, asyncsshTerminateAction force =
      if force then TermAction.killSignal else TermAction.gracefulSignal)
    ∧ (∀ force, paramikoTerminateAction force = TermAction.chanClose) := by
  exact ⟨fun force => rfl, fun force => rfl⟩

/-- C7: a connection matching neither recognized transport capability —
including a genuine client object whose library failed to import — makes
`spawn` raise `ValueError("Unsupported connection type")` before any
allocation: no pipe fd, session or forwarder thread is held when the
error propagates. -/
theorem spawn_unsupported_no_resources (env : LibEnv) (conn : ConnKind)
    (fp : FailurePlan)
    (h1 : (env.haveAsyncssh && conn == ConnKind.asyncsshClientConnection) = false)
    (h2 : (env.haveParamiko && conn == ConnKind.paramikoSSHClient) = false) :
    spawnRun env conn fp =
      (SpawnOutcome.unsupportedConnection, false,
        { pipeFds := 0, sessionOpen := false, fwdThreadRunning := false }) := by
  unfold spawnRun
  simp [h1, h2]

/-- C7 witness: with neither library importable, even an asyncssh
connection object is rejected cleanly. -/
theorem spawn_unsupported_no_resources_witness :
    spawnRun ⟨false, false⟩ ConnKind.asyncsshClientConnection ⟨false, false, false, false⟩ =
      (SpawnOutcome.unsupportedConnection, false,
        { pipeFds := 0, sessionOpen := false, fwdThreadRunning := false }) :=
  spawn_unsupported_no_resources ⟨false, false⟩ ConnKind.asyncsshClientConnection
    ⟨false, false, false, false⟩ (by decide) (by decide)

/-- C8: claimed, every resource already allocated is released before a
construction error propagates.  When `get_pty` is rejected on the
paramiko path, or `create_process` fails on the asyncssh path, the two
pipe fds from `os.pipe()` stay open as the exception propagates (there
is no `try`/`finally`); no forwarder thread is running in either case. -/
theorem spawn_failure_leaks_pipe_fds :
    spawnParamikoRun ⟨false, true, false, false⟩ =
      (false, { pipeFds := 2, sessionOpen := true, fwdThreadRunning := false })
    ∧ spawnAsyncsshRun ⟨false, false, false, true⟩ =
      (false, { pipeFds := 2, sessionOpen := false, fwdThreadRunning := false }) := by
  decide

/-- C9 counterexample: on the asyncssh path, once the remote command has
exited (channel no longer open) a further `terminate` call raises
`OSError` — the source forwards to `kill()`/`terminate()` with no
liveness guard — so terminate is not safe to call again after exit. -/
theorem asyncssh_terminate_after_exit_raises :
    asyncsshExpectTerminate false ⟨false⟩ = Except.error "OSError: channel not open" := by
  rfl

/-- C9 amended: on the paramiko path `terminate` is idempotent — a repeat
call on the already-closed channel returns the same state and never
raises; on the asyncssh path any `terminate` call after the channel has
closed (as after process exit) propagates the transport's `OSError`. -/
theorem terminate_repeat_by_path :
    (∀ force c, paramikoExpectTerminate force (channelClose c) = Except.ok (channelClose c))
    ∧ (∀ force, asyncsshExpectTerminate force ⟨false⟩ =
        Except.error "OSError: channel not open") := by
  refine ⟨fun force c => rfl, fun force => ?_⟩
  cases force <;> rfl

theorem kwGet_filterKw_none (names : List String) (kw : Kw) (n : String)
    (h : kwGet kw n = none) : kwGet (filterKw names kw) n = none := by
  induction names with
  | nil => rfl
  | cons m names ih =>
    simp only [filterKw, List.filterMap_cons] at ih ⊢
    cases hm : kwGet kw m with
    | none => simpa [hm] using ih
    | some v =>
      have hmn : m ≠ n := by
        intro e
        rw [e, h] at hm
        cases hm
      simp [hm, kwGet, hmn, ih]

theorem filterKw_cons_not_mem (names : List String) (k : String) (v : OptVal) (kw : Kw)
    (h : k ∉ names) : filterKw names ((k, v) :: kw) = filterKw names kw := by
  induction names with
  | nil => rfl
  | cons m names ih =>
    have hkm : k ≠ m := by
      intro e
      exact h (by simp [e])
    have h' : k ∉ names := fun hh => h (List.mem_cons_of_mem _ hh)
    simp only [filterKw, List.filterMap_cons] at ih ⊢
    have hg : kwGet ((k, v) :: kw) m = kwGet kw m := by
      simp [kwGet, hkm]
    rw [hg]
    cases kwGet kw m <;> simp [ih h']

/-- C6: with none of the corresponding options supplied, spawn requests
the pseudo-terminal with terminal type "vt100" on both paths (explicitly
on the asyncssh path; through the transport's documented `get_pty`
default on the paramiko path), the encoding policy defaults to
"utf-8"/"strict" on both paths, and the forwarder chunk size defaults to
2048. -/
theorem spawn_default_options (kw : Kw)
    (h1 : kwGet kw "term_type" = none) (h2 : kwGet kw "encoding" = none)
    (h3 : kwGet kw "errors" = none) (h4 : kwGet kw "term" = none)
    (h5 : kwGet kw "buff_size" = none) :
    asyncsshEffectiveCfg kw =
      ⟨OptVal.str "vt100", OptVal.str "utf-8", OptVal.str "strict"⟩
    ∧ getPtyTerm (paramikoKwmap kw).pty = OptVal.str "vt100"
    ∧ effectiveBuffSize (paramikoKwmap kw).spawnOpts = OptVal.nat 2048
    ∧ effectiveEncoding (paramikoKwmap kw).spawnOpts = OptVal.str "utf-8"
    ∧ effectiveErrors (paramikoKwmap kw).spawnOpts = OptVal.str "strict" := by
  refine ⟨?_, ?_, ?_, ?_, ?_⟩
  · simp [asyncsshEffectiveCfg, kwGetD, h1, h2, h3]
  · simp [getPtyTerm, kwGetD, paramikoKwmap, kwGet_filterKw_none _ _ _ h4]
  · simp [effectiveBuffSize, kwGetD, paramikoKwmap, kwGet_filterKw_none _ _ _ h5]
  · simp [effectiveEncoding, kwGetD, paramikoKwmap, kwGet_filterKw_none _ _ _ h2]
  · simp [effectiveErrors, kwGetD, paramikoKwmap, kwGet_filterKw_none _ _ _ h3]

/-- C6 witness: the empty option set takes every default. -/
theorem spawn_default_options_witness :
    asyncsshEffectiveCfg [] =
      ⟨OptVal.str "vt100", OptVal.str "utf-8", OptVal.str "strict"⟩
    ∧ getPtyTerm (paramikoKwmap []).pty = OptVal.str "vt100"
    ∧ effectiveBuffSize (paramikoKwmap []).spawnOpts = OptVal.nat 2048
    ∧ effectiveEncoding (paramikoKwmap []).spawnOpts = OptVal.str "utf-8"
    ∧ effectiveErrors (paramikoKwmap []).spawnOpts = OptVal.str "strict" :=
  spawn_default_options [] rfl rfl rfl rfl rfl

/-- C10: on the paramiko path every keyword option outside the eleven
recognized names is silently dropped — it reaches none of the session,
pty or spawn argument groups — and in particular `term_type` (the
asyncssh-path spelling, as opposed to `term`) never reaches the
pseudo-terminal request, which then uses the default terminal type. -/
theorem paramiko_unknown_options_discarded (k : String) (v : OptVal) (kw : Kw)
    (h : k ∉ sessionKeys ++ ptyKeys ++ spawnKeys) :
    paramikoKwmap ((k, v) :: kw) = paramikoKwmap kw
    ∧ getPtyTerm (paramikoKwmap [("term_type", OptVal.str "xterm")]).pty
      = OptVal.str "vt100" := by
  constructor
  · have hs : k ∉ sessionKeys := fun hh => h (by simp [hh])
    have hp : k ∉ ptyKeys := fun hh => h (by simp [hh])
    have hw : k ∉ spawnKeys := fun hh => h (by simp [hh])
    simp only [paramikoKwmap, filterKw_cons_not_mem _ _ _ _ hs,
      filterKw_cons_not_mem _ _ _ _ hp, filterKw_cons_not_mem _ _ _ _ hw]
  · decide

/-- C10 witness: `term_type` is not a recognized paramiko-path option. -/
theorem paramiko_unknown_options_discarded_witness :
    paramikoKwmap [("term_type", OptVal.str "xterm")] = paramikoKwmap [] :=
  (paramiko_unknown_options_discarded "term_type" (OptVal.str "xterm") [] (by decide)).1

theorem utf8EncodeChar_ascii (b0 : Nat) (h : b0 < 128) :
    utf8EncodeChar b0 = [b0] := by
  simp [utf8EncodeChar, h]

theorem utf8EncodeChar_two (b0 b1 : Nat) (h0 : 194 ≤ b0) (h0' : b0 < 224)
    (h1 : 128 ≤ b1) (h1' : b1 < 192) :
    utf8EncodeChar ((b0 - 192) * 64 + (b1 - 128)) = [b0, b1] := by
  have hge : ¬((b0 - 192) * 64 + (b1 - 128) < 128) := by omega
  have hlt : (b0 - 192) * 64 + (b1 - 128) < 2048 := by omega
  simp only [utf8EncodeChar, if_neg hge, if_pos hlt, List.cons.injEq, and_true]
  omega

theorem utf8EncodeChar_three (b0 b1 b2 : Nat) (h0 : 224 ≤ b0) (h0' : b0 < 240)
    (h1 : 128 ≤ b1) (h1' : b1 < 192) (h2 : 128 ≤ b2) (h2' : b2 < 192)
    (hc : ¬((b0 - 224) * 4096 + (b1 - 128) * 64 + (b2 - 128) < 2048)) :
    utf8EncodeChar ((b0 - 224) * 4096 + (b1 - 128) * 64 + (b2 - 128)) = [b0, b1, b2] := by
  have hge : ¬((b0 - 224) * 4096 + (b1 - 128) * 64 + (b2 - 128) < 128) := by omega
  have hlt : (b0 - 224) * 4096 + (b1 - 128) * 64 + (b2 - 128) < 65536 := by omega
  simp only [utf8EncodeChar, if_neg hge, if_neg hc, if_pos hlt, List.cons.injEq, and_true]
  omega

theorem utf8EncodeChar_four (b0 b1 b2 b3 : Nat) (h0 : 240 ≤ b0) (h0' : b0 < 245)
    (h1 : 128 ≤ b1) (h1' : b1 < 192) (h2 : 128 ≤ b2) (h2' : b2 < 192)
    (h3 : 128 ≤ b3) (h3' : b3 < 192)
    (hc : ¬((b0 - 240) * 262144 + (b1 - 128) * 4096 + (b2 - 128) * 64 + (b3 - 128) < 65536)) :
    utf8EncodeChar ((b0 - 240) * 262144 + (b1 - 128) * 4096 + (b2 - 128) * 64 + (b3 - 128))
      = [b0, b1, b2, b3] := by
  have hge : ¬((b0 - 240) * 262144 + (b1 - 128) * 4096 + (b2 - 128) * 64 + (b3 - 128) < 128) := by
    omega
  have hlt : ¬((b0 - 240) * 262144 + (b1 - 128) * 4096 + (b2 - 128) * 64 + (b3 - 128) < 2048) := by
    omega
  simp only [utf8EncodeChar, if_neg hge, if_neg hlt, if_neg hc, List.cons.injEq, and_true]
  omega

theorem utf8DecodeStep_sound (b : List Nat) (c : Nat) (r : List Nat)
    (h : utf8DecodeStep b = some (c, r)) : utf8EncodeChar c ++ r = b := by
  rcases b with _ | ⟨b0, tail⟩
  · simp [utf8DecodeStep] at h
  · simp only [utf8DecodeStep] at h
    by_cases h0 : b0 < 128
    · rw [if_pos h0] at h
      simp only [Option.some.injEq, Prod.mk.injEq] at h
      obtain ⟨rfl, rfl⟩ := h
      rw [utf8EncodeChar_ascii b0 h0]
      rfl
    · rw [if_neg h0] at h
      by_cases h1 : b0 < 194
      · rw [if_pos h1] at h
        simp at h
      · rw [if_neg h1] at h
        by_cases h2 : b0 < 224
        · rw [if_pos h2] at h
          rcases tail with _ | ⟨b1, tail1⟩
          · simp at h
          · dsimp only at h
            cases hc1 : contOk b1 with
            | false => simp [hc1] at h
            | true =>
              rw [if_pos hc1] at h
              simp only [Option.some.injEq, Prod.mk.injEq] at h
              obtain ⟨rfl, rfl⟩ := h
              simp only [contOk, Bool.and_eq_true, decide_eq_true_eq] at hc1
              rw [utf8EncodeChar_two b0 b1 (by omega) (by omega) (by omega) (by omega)]
              rfl
        · rw [if_neg h2] at h
          by_cases h3 : b0 < 240
          · rw [if_pos h3] at h
            rcases tail with _ | ⟨b1, _ | ⟨b2, tail2⟩⟩
            · simp at h
            · simp at h
            · dsimp only at h
              cases hc1 : (contOk b1 && contOk b2) with
              | false => simp [hc1] at h
              | true =>
                rw [if_pos hc1] at h
                split_ifs at h with hA hB
                simp only [Option.some.injEq, Prod.mk.injEq] at h
                obtain ⟨rfl, rfl⟩ := h
                simp only [contOk, Bool.and_eq_true, decide_eq_true_eq] at hc1
                rw [utf8EncodeChar_three b0 b1 b2 (by omega) (by omega) (by omega)
                  (by omega) (by omega) (by omega) hA]
                rfl
          · rw [if_neg h3] at h
            by_cases h4 : b0 < 245
            · rw [if_pos h4] at h
              rcases tail with _ | ⟨b1, _ | ⟨b2, _ | ⟨b3, tail3⟩⟩⟩
              · simp at h
              · simp at h
              · simp at h
              · dsimp only at h
                cases hc1 : (contOk b1 && contOk b2 && contOk b3) with
                | false => simp [hc1] at h
                | true =>
                  rw [if_pos hc1] at h
                  split_ifs at h with hA hB
                  simp only [Option.some.injEq, Prod.mk.injEq] at h
                  obtain ⟨rfl, rfl⟩ := h
                  simp only [contOk, Bool.and_eq_true, decide_eq_true_eq] at hc1
                  rw [utf8EncodeChar_four b0 b1 b2 b3 (by omega) (by omega) (by omega)
                    (by omega) (by omega) (by omega) (by omega) (by omega) hA]
                  rfl
            · rw [if_neg h4] at h
              simp at h

theorem utf8DecodeLoop_encode : ∀ (fuel : Nat) (b : List Nat) (s : List Nat),
    utf8DecodeLoop fuel b = some s → utf8Encode s = b := by
  intro fuel
  induction fuel with
  | zero =>
    intro b s h
    rcases b with _ | ⟨b0, tail⟩
    · simp only [utf8DecodeLoop, Option.some.injEq] at h
      subst h
      rfl
    · simp [utf8DecodeLoop] at h
  | succ n ih =>
    intro b s h
    rcases b with _ | ⟨b0, tail⟩
    · simp only [utf8DecodeLoop, Option.some.injEq] at h
      subst h
      rfl
    · simp only [utf8DecodeLoop] at h
      cases hstep : utf8DecodeStep (b0 :: tail) with
      | none => rw [hstep] at h; simp at h
      | some cr =>
        rw [hstep] at h
        obtain ⟨c, r⟩ := cr
        simp only [Option.map_eq_some'] at h
        obtain ⟨s', hs', rfl⟩ := h
        have hb := utf8DecodeStep_sound _ _ _ hstep
        calc utf8Encode (c :: s')
            = utf8EncodeChar c ++ utf8Encode s' := by
              simp [utf8Encode]
          _ = utf8EncodeChar c ++ r := by rw [ih r s' hs']
          _ = b0 :: tail := hb

theorem utf8_decode_encode (b : List Nat) (s : List Nat) (h : utf8Decode b = some s) :
    utf8Encode s = b :=
  utf8DecodeLoop_encode b.length b s h

/-- C5: on a live process, `send` delivers the data verbatim to the
remote command's input stream and returns the number of bytes accepted:
on the asyncssh path a text `s` reaches stdin as exactly its UTF-8 bytes
with return value their count, and a valid byte payload `b` reaches
stdin as exactly `b` (decode then re-encode is the identity) with return
value `len(b)`; on the paramiko path the bytes go to the channel
unchanged and the channel's accepted count is returned.  In particular
`send("ping\n")` returns 5 on both paths. -/
theorem send_verbatim (p : StdinState) (ch : ChanState)
    (hp : p.isOpen = true) (hch : ch.isOpen = true) :
    (∀ s, asyncsshSend (SendData.text s) p =
      some ((utf8Encode s).length, { p with received := p.received ++ utf8Encode s }))
    ∧ (∀ b s, utf8Decode b = some s → asyncsshSend (SendData.bytes b) p =
      some (b.length, { p with received := p.received ++ b }))
    ∧ (∀ b, channelSend b ch =
      some (b.length, { ch with toRemote := ch.toRemote ++ b }))
    ∧ asyncsshSend (SendData.text [112, 105, 110, 103, 10]) p =
      some (5, { p with received := p.received ++ [112, 105, 110, 103, 10] })
    ∧ channelSend [112, 105, 110, 103, 10] ch =
      some (5, { ch with toRemote := ch.toRemote ++ [112, 105, 110, 103, 10] }) := by
  have htext : ∀ s, asyncsshSend (SendData.text s) p =
      some ((utf8Encode s).length, { p with received := p.received ++ utf8Encode s }) := by
    intro s
    simp [asyncsshSend, stdinWrite, hp]
  have hbytes : ∀ b s, utf8Decode b = some s → asyncsshSend (SendData.bytes b) p =
      some (b.length, { p with received := p.received ++ b }) := by
    intro b s hdec
    have henc := utf8_decode_encode b s hdec
    simp [asyncsshSend, hdec, stdinWrite, hp, henc]
  have hchan : ∀ b, channelSend b ch =
      some (b.length, { ch with toRemote := ch.toRemote ++ b }) := by
    intro b
    simp [channelSend, hch]
  refine ⟨htext, hbytes, hchan, ?_, ?_⟩
  · have := htext [112, 105, 110, 103, 10]
    simpa using this
  · simpa using hchan [112, 105, 110, 103, 10]

/-- C5 witness: sending "ping\n" on a live process returns 5 and delivers
exactly the five bytes, on both transport paths. -/
theorem send_verbatim_witness :
    asyncsshSend (SendData.text [112, 105, 110, 103, 10]) ⟨[], true⟩ =
      some (5, ⟨[112, 105, 110, 103, 10], true⟩)
    ∧ channelSend [112, 105, 110, 103, 10] ⟨[], true⟩ =
      some (5, ⟨[112, 105, 110, 103, 10], true⟩) := by
  have h := send_verbatim ⟨[], true⟩ ⟨[], true⟩ rfl rfl
  exact ⟨by simpa using h.2.2.2.1, by simpa using h.2.2.2.2⟩

end SSHExpect
